import Mathlib

/-!
Verification of the Rain Risk Analyzer data pipeline (src/app.py).

The program geocodes an address, finds the nearest NOAA station, fetches
daily precipitation records with pagination, and aggregates them into a
per-month average count of days meeting a rain threshold.

The embedding below models the four core functions of src/app.py:
`get_coordinates` (lines 27-32), `find_nearest_station` (lines 34-48),
`fetch_precipitation_data` (lines 50-76), `process_data` (lines 78-94),
and the main execution block (lines 97-119).

Remote services are modelled as oracles passed explicitly: the geocoder
response is an `Option (ℚ × ℚ)` (None = no match, which the Python code
turns into a ValueError), the station-search response and each paginated
data-page response are `Except Err _` values (`Except.error` = a
non-success HTTP status, on which `response.raise_for_status()` raises).
Python floats are modelled as rationals.  The unbounded `while True`
paging loop is modelled with an explicit fuel parameter; exhausting the
fuel yields `none`, an artifact that corresponds to the Python loop not
terminating.  `time.sleep` has no observable effect in the model.
-/

namespace RainRisk

/-- Constant from src/app.py line 10: `MM_TO_INCHES = 0.0393701`.
(`mkRat 393701 10000000` is the exact rational 0.0393701; the theorem
`rat_mm_to_inches_eq` below checks it against the decimal literal.) -/
def MM_TO_INCHES : ℚ := mkRat 393701 10000000

/-- Constant from src/app.py line 11: `RESULTS_PER_PAGE = 1000`. -/
def RESULTS_PER_PAGE : ℕ := 1000

/-- A calendar date, as extracted by `pd.to_datetime` / `.dt.year` /
`.dt.month` in `process_data` (src/app.py lines 83, 85-86). -/
structure Date where
  year : ℕ
  month : ℕ
  day : ℕ
deriving DecidableEq

/-- One daily observation as returned in a page's `results` array:
`{date, value, ...}` with `value` in millimeters (src/app.py line 70,
spec section 3).  Station/dataset metadata fields are passed through
unchanged by the code and never read, so they are omitted here. -/
structure ObservationRecord where
  date : Date
  value : ℚ
deriving DecidableEq

/-- A station object from the station-search `results` array; the code
only reads its `id` field (src/app.py line 48). -/
structure Station where
  id : String
deriving DecidableEq

/-- Error taxonomy of the pipeline.  `geocodeFailure` is the
`ValueError("Could not geocode address.")` of src/app.py line 31;
`serviceError` is the `requests.HTTPError` raised by
`response.raise_for_status()` on a non-success status code
(src/app.py lines 46 and 69). -/
inductive Err where
  | geocodeFailure
  | serviceError (status : ℕ)
deriving DecidableEq

/-- One page request issued by `fetch_precipitation_data`: the
`stationid`, `startdate`/`enddate` year and `offset` query parameters
of src/app.py lines 58-67.  `station` is an `Option` because the main
block passes `find_nearest_station`'s result (possibly `None`) straight
through (src/app.py lines 101 and 104). -/
structure PageReq where
  station : Option String
  year : ℕ
  offset : ℕ
deriving DecidableEq

/-- `get_coordinates` (src/app.py lines 27-32): the geocoder oracle
returns `none` for "no match", on which the code raises; otherwise the
latitude/longitude pair is returned. -/
def get_coordinates (geo : Option (ℚ × ℚ)) : Except Err (ℚ × ℚ) :=
  match geo with
  | none => .error .geocodeFailure
  | some c => .ok c

/-- `find_nearest_station` (src/app.py lines 34-48): on a success
response take `results[0]["id"]` if the `results` array is non-empty,
else `None`; a non-success response raises. -/
def find_nearest_station (resp : Except Err (List Station)) : Except Err (Option String) :=
  match resp with
  | .error e => .error e
  | .ok results => .ok (results.head?.map Station.id)

/-- The inner `while True` paging loop of `fetch_precipitation_data`
for one year (src/app.py lines 56-75), with explicit fuel.  Returns the
accumulated records and the log of issued page requests, or `none` if
the fuel runs out.  On a non-success page response the exception
propagates: the accumulator is dropped and only the error is returned. -/
def fetchYearAux (svc : PageReq → Except Err (List ObservationRecord)) (sid : Option String)
    (year : ℕ) : ℕ → ℕ → List ObservationRecord → List PageReq →
    Option (Except Err (List ObservationRecord) × List PageReq)
  | 0, _, _, _ => none
  | fuel + 1, offset, acc, log =>
    match svc ⟨sid, year, offset⟩ with
    | .error e => some (.error e, log ++ [⟨sid, year, offset⟩])
    | .ok batch =>
      if batch.isEmpty then some (.ok acc, log ++ [⟨sid, year, offset⟩])
      else fetchYearAux svc sid year fuel (offset + RESULTS_PER_PAGE) (acc ++ batch)
        (log ++ [⟨sid, year, offset⟩])

/-- The outer per-year loop of `fetch_precipitation_data`
(src/app.py line 55), threading the shared `all_data` accumulator. -/
def fetchYears (svc : PageReq → Except Err (List ObservationRecord)) (sid : Option String)
    (fuel : ℕ) : List ℕ → List ObservationRecord → List PageReq →
    Option (Except Err (List ObservationRecord) × List PageReq)
  | [], acc, log => some (.ok acc, log)
  | year :: rest, acc, log =>
    match fetchYearAux svc sid year fuel 1 acc log with
    | none => none
    | some (.error e, log2) => some (.error e, log2)
    | some (.ok acc2, log2) => fetchYears svc sid fuel rest acc2 log2

/-- `fetch_precipitation_data` (src/app.py lines 50-76): for each year
in `range(start_year, end_year + 1)`, page from offset 1 in steps of
`RESULTS_PER_PAGE` until a page comes back empty. -/
def fetch_precipitation_data (svc : PageReq → Except Err (List ObservationRecord))
    (station_id : Option String) (start_year end_year fuel : ℕ) :
    Option (Except Err (List ObservationRecord) × List PageReq) :=
  fetchYears svc station_id fuel
    ((List.range (end_year + 1 - start_year)).map (start_year + ·)) [] []

/-- The `month_map` of src/app.py lines 89-92 (numeric month 1-12 to
full month name; months produced by `.dt.month` are always in 1-12). -/
def monthName : ℕ → String
  | 1 => "January"
  | 2 => "February"
  | 3 => "March"
  | 4 => "April"
  | 5 => "May"
  | 6 => "June"
  | 7 => "July"
  | 8 => "August"
  | 9 => "September"
  | 10 => "October"
  | 11 => "November"
  | 12 => "December"
  | _ => ""

/-- Unit conversion of one record: `df["value"] = df["value"] * MM_TO_INCHES`
(src/app.py line 82). -/
def convertRecord (r : ObservationRecord) : ObservationRecord :=
  ⟨r.date, r.value * MM_TO_INCHES⟩

/-- The converted record sequence (src/app.py line 82). -/
def convertedRecords (data : List ObservationRecord) : List ObservationRecord :=
  data.map convertRecord

/-- The threshold filter: `df = df[df["value"] >= threshold]`
(src/app.py line 84), applied after unit conversion. -/
def filteredRecords (data : List ObservationRecord) (threshold : ℚ) : List ObservationRecord :=
  (convertedRecords data).filter fun r => decide (threshold ≤ r.value)

/-- The `(year, month)` group key of a record (src/app.py lines 85-87). -/
def recordKey (r : ObservationRecord) : ℕ × ℕ :=
  (r.date.year, r.date.month)

/-- Lexicographic order on `(year, month)` keys: pandas
`groupby(["year", "month"])` sorts its group keys lexicographically. -/
def keyLE (a b : ℕ × ℕ) : Prop :=
  a.1 < b.1 ∨ (a.1 = b.1 ∧ a.2 ≤ b.2)

instance : DecidableRel keyLE :=
  fun a b => inferInstanceAs (Decidable (a.1 < b.1 ∨ (a.1 = b.1 ∧ a.2 ≤ b.2)))

instance : IsTotal (ℕ × ℕ) keyLE :=
  ⟨fun a b => by unfold keyLE; omega⟩

instance : IsTrans (ℕ × ℕ) keyLE :=
  ⟨fun a b c hab hbc => by unfold keyLE at hab hbc ⊢; omega⟩

instance : IsAntisymm (ℕ × ℕ) keyLE :=
  ⟨fun a b hab hba => by
    unfold keyLE at hab hba
    have h1 : a.1 = b.1 := by omega
    have h2 : a.2 = b.2 := by omega
    exact Prod.ext h1 h2⟩

/-- The sorted distinct `(year, month)` keys of
`df.groupby(["year", "month"])` (src/app.py line 87): pandas groups by
the distinct key values and sorts them. -/
def groupKeys (filtered : List ObservationRecord) : List (ℕ × ℕ) :=
  List.insertionSort keyLE ((filtered.map recordKey).dedup)

/-- `monthly_counts = df.groupby(["year", "month"]).size()`
(src/app.py line 87): each present `(year, month)` key with the number
of filtered records in that group. -/
def monthlyCounts (filtered : List ObservationRecord) : List ((ℕ × ℕ) × ℕ) :=
  (groupKeys filtered).map fun k =>
    (k, (filtered.filter fun r => decide (recordKey r = k)).length)

/-- The sorted distinct months of `monthly_counts.groupby("month")`
(src/app.py line 88). -/
def monthKeys (mc : List ((ℕ × ℕ) × ℕ)) : List ℕ :=
  List.insertionSort (· ≤ ·) ((mc.map fun p => p.1.2).dedup)

/-- `avg_days = monthly_counts.groupby("month")["days"].mean()`
(src/app.py line 88): for each present month, the arithmetic mean of
the per-(year, month) counts that exist for that month. -/
def avgDays (mc : List ((ℕ × ℕ) × ℕ)) : List (ℕ × ℚ) :=
  (monthKeys mc).map fun m =>
    let cs := mc.filterMap fun p => if p.1.2 = m then some p.2 else none
    (m, ((cs.map fun n => (n : ℚ)).sum) / (cs.length : ℚ))

/-- `process_data` (src/app.py lines 78-94).  Note the empty check
`if df.empty: return None` is on the RAW input, before conversion and
filtering; the output rows are (month name, average count). -/
def process_data (data : List ObservationRecord) (threshold : ℚ) :
    Option (List (String × ℚ)) :=
  if data.isEmpty then none
  else some ((avgDays (monthlyCounts (filteredRecords data threshold))).map
    fun p => (monthName p.1, p.2))

/-- What the main execution block displays at the end of a run
(src/app.py lines 97-119): `st.error` in the except-branch,
`st.dataframe` for a table, `st.warning` when `process_data` returns
`None`, or `fuelExhausted` (model artifact: the paging loop exceeded
the fuel). -/
inductive Outcome where
  | errorShown (e : Err)
  | tableShown (rows : List (String × ℚ))
  | noDataWarning
  | fuelExhausted
deriving DecidableEq

/-- Observable trace of one run of the main block: the displayed
outcome, which stages were invoked, and the page requests issued by
the observation-fetch stage. -/
structure RunTrace where
  outcome : Outcome
  stationLookupRun : Bool
  fetchRun : Bool
  aggregateRun : Bool
  requests : List PageReq
deriving DecidableEq

/-- The main execution block (src/app.py lines 97-119): strictly linear
`get_coordinates` → `find_nearest_station` → `fetch_precipitation_data`
→ `process_data`, every exception caught by the single `except` and
shown with `st.error`.  Note that `station_id` (an `Option`) is passed
to `fetch_precipitation_data` without any `None` check, exactly as in
src/app.py lines 101-104. -/
def runPipeline (geo : Option (ℚ × ℚ)) (stations : Except Err (List Station))
    (svc : PageReq → Except Err (List ObservationRecord))
    (start_year end_year : ℕ) (threshold : ℚ) (fuel : ℕ) : RunTrace :=
  match get_coordinates geo with
  | .error e => ⟨.errorShown e, false, false, false, []⟩
  | .ok _ =>
    match find_nearest_station stations with
    | .error e => ⟨.errorShown e, true, false, false, []⟩
    | .ok station_id =>
      match fetch_precipitation_data svc station_id start_year end_year fuel with
      | none => ⟨.fuelExhausted, true, true, false, []⟩
      | some (.error e, log) => ⟨.errorShown e, true, true, false, log⟩
      | some (.ok data, log) =>
        match process_data data threshold with
        | none => ⟨.noDataWarning, true, true, true, log⟩
        | some rows => ⟨.tableShown rows, true, true, true, log⟩

/-! Concrete inputs used by the claim theorems and witnesses. -/

/-- A data-page oracle whose every page is an empty success response. -/
def svcEmpty : PageReq → Except Err (List ObservationRecord) := fun _ => .ok []

/-- A data-page oracle whose every page is a non-success response. -/
def svcErr : PageReq → Except Err (List ObservationRecord) :=
  fun _ => .error (.serviceError 503)

/-- A record used only to fill pages; its value is never compared. -/
def dummyRec : ObservationRecord := ⟨⟨2020, 1, 1⟩, mkRat 0 1⟩

/-- A data-page oracle that returns exactly 1000 records at offset 1
and an empty page at every other offset. -/
def svcPage : PageReq → Except Err (List ObservationRecord) :=
  fun req => if req.offset = 1 then .ok (List.replicate 1000 dummyRec) else .ok []

/-- A record whose converted value is exactly 0.5 inches:
(5000000/393701) mm * 0.0393701 = 1/2. -/
def boundaryRec : ObservationRecord := ⟨⟨2020, 6, 1⟩, mkRat 5000000 393701⟩

/-- June scenario of the mean-over-present-years-only property:
three qualifying June days in 2020, five in 2022 (25.4 mm each,
converted ≈ 1.0 in ≥ 0.5), and one non-qualifying June day in 2021
(1 mm, converted ≈ 0.039 in < 0.5). -/
def juneData : List ObservationRecord :=
  [⟨⟨2020, 6, 1⟩, mkRat 254 10⟩, ⟨⟨2020, 6, 2⟩, mkRat 254 10⟩, ⟨⟨2020, 6, 3⟩, mkRat 254 10⟩,
   ⟨⟨2021, 6, 15⟩, mkRat 1 1⟩,
   ⟨⟨2022, 6, 1⟩, mkRat 254 10⟩, ⟨⟨2022, 6, 2⟩, mkRat 254 10⟩, ⟨⟨2022, 6, 3⟩, mkRat 254 10⟩,
   ⟨⟨2022, 6, 4⟩, mkRat 254 10⟩, ⟨⟨2022, 6, 5⟩, mkRat 254 10⟩]

/-- Two records in different year-months, for the permutation witness. -/
def recA : ObservationRecord := ⟨⟨2020, 6, 1⟩, mkRat 254 10⟩

/-- Second record for the permutation witness. -/
def recB : ObservationRecord := ⟨⟨2021, 7, 2⟩, mkRat 30 1⟩

/-! Helper lemmas: rewriting the (elaborator-irreducible) rational
arithmetic into `mkRat`/`Rat.divInt` form so that concrete instances
evaluate. -/

theorem rat_mul_eval (a b : ℚ) : a * b = mkRat (a.num * b.num) (a.den * b.den) := by
  rw [Rat.mul_def, Rat.normalize_eq_mkRat]

theorem rat_add_eval (a b : ℚ) :
    a + b = mkRat (a.num * b.den + b.num * a.den) (a.den * b.den) :=
  Rat.add_def' a b

theorem rat_div_eval (a b : ℚ) : a / b = Rat.divInt (a.num * b.den) (a.den * b.num) :=
  Rat.div_def' a b

theorem rat_natCast_eval (n : ℕ) : ((n : ℕ) : ℚ) = mkRat n 1 := by
  rw [Rat.mkRat_one]
  norm_num

theorem rat_mm_to_inches_eq : MM_TO_INCHES = (0.0393701 : ℚ) := by
  rw [MM_TO_INCHES, Rat.mkRat_eq_div]
  norm_num

/-- C8: when the geocoding service returns no match (`none`),
`get_coordinates` signals the geocode failure and the pipeline stops
with the error shown: `find_nearest_station` is never invoked
(`stationLookupRun = false`), and neither are the later stages. -/
theorem c8_geocode_failure_stops_pipeline (stations : Except Err (List Station))
    (svc : PageReq → Except Err (List ObservationRecord))
    (start_year end_year fuel : ℕ) (threshold : ℚ) :
    get_coordinates none = .error .geocodeFailure ∧
    runPipeline none stations svc start_year end_year threshold fuel =
      ⟨.errorShown .geocodeFailure, false, false, false, []⟩ :=
  ⟨rfl, rfl⟩

/-- C10: if `fetch_precipitation_data` is called with a start year
greater than the end year, `range(start_year, end_year + 1)` is empty,
so no page request is issued and the empty record sequence is returned
successfully. -/
theorem c10_empty_year_range (svc : PageReq → Except Err (List ObservationRecord))
    (station_id : Option String) (start_year end_year fuel : ℕ)
    (h : end_year < start_year) :
    fetch_precipitation_data svc station_id start_year end_year fuel =
      some (.ok [], []) := by
  unfold fetch_precipitation_data
  rw [show end_year + 1 - start_year = 0 from by omega]
  rfl

/-- C10 witness: a concrete inverted range (2021 down to 2020) fetches
nothing and issues no requests. -/
theorem c10_empty_year_range_witness :
    2020 < 2021 ∧
    fetch_precipitation_data svcEmpty (some "GHCND:USW00014842") 2021 2020 5 =
      some (.ok [], []) :=
  ⟨by decide, c10_empty_year_range svcEmpty (some "GHCND:USW00014842") 2021 2020 5 (by decide)⟩

/-- C1 (code bug): with a successful geocode and a station search that
returns an empty `results` array (`find_nearest_station` yields
`none`), the main block does NOT report "no station found": it invokes
`fetch_precipitation_data` anyway (`fetchRun = true`), issuing a page
request whose `stationid` is `none`, and ends showing the unrelated
"no qualifying rain days" warning. -/
theorem c1_station_none_still_fetches :
    find_nearest_station (.ok []) = .ok none ∧
    runPipeline (some (0, 0)) (.ok []) svcEmpty 2020 2020 (mkRat 1 2) 1 =
      ⟨.noDataWarning, true, true, true, [⟨none, 2020, 1⟩]⟩ :=
  ⟨rfl, rfl⟩

/-- C2 (code bug): `process_data` returns `None` only when the RAW
input is empty (first conjunct, which the code gets right).  For a
non-empty input whose records are all eliminated by the threshold
filter (one 1 mm record, converted 0.0393701 in < 0.5 in), it returns
`some []` — an empty table — instead of the `None` the claim
requires (second and third conjuncts). -/
theorem c2_filtered_empty_gives_empty_table :
    process_data [] (mkRat 1 2) = none ∧
    process_data [⟨⟨2020, 6, 1⟩, mkRat 1 1⟩] (mkRat 1 2) = some [] ∧
    some ([] : List (String × ℚ)) ≠ none := by
  refine ⟨rfl, ?_, by decide⟩
  have hfil : filteredRecords [⟨⟨2020, 6, 1⟩, mkRat 1 1⟩] (mkRat 1 2) = [] := by
    simp only [filteredRecords, convertedRecords, List.map_cons, List.map_nil,
      convertRecord, rat_mul_eval]
    decide
  unfold process_data
  rw [hfil]
  rfl

/-- C6: unit conversion multiplies each record's raw millimeter value
by exactly the constant 0.0393701, and converting 25.4 mm yields 1.00
inch within tolerance 1/10000. -/
theorem c6_unit_conversion :
    (∀ (d : Date) (v : ℚ), (convertRecord ⟨d, v⟩).value = v * (0.0393701 : ℚ)) ∧
    |(25.4 : ℚ) * (0.0393701 : ℚ) - 1| < 1 / 10000 := by
  constructor
  · intro d v
    show v * MM_TO_INCHES = v * (0.0393701 : ℚ)
    rw [rat_mm_to_inches_eq]
  · rw [abs_sub_lt_iff]
    constructor <;> norm_num

/-- C5: a record of the input appears (converted) in the filtered set
iff its converted value (raw millimeters times the conversion
constant) is at least the threshold. -/
theorem c5_threshold_filter_iff (data : List ObservationRecord) (t : ℚ)
    (r : ObservationRecord) (hr : r ∈ data) :
    convertRecord r ∈ filteredRecords data t ↔ t ≤ r.value * MM_TO_INCHES := by
  unfold filteredRecords convertedRecords
  constructor
  · intro hmem
    exact of_decide_eq_true (List.mem_filter.mp hmem).2
  · intro hle
    exact List.mem_filter.mpr ⟨List.mem_map_of_mem convertRecord hr, decide_eq_true hle⟩

/-- C5 witness: a record whose converted value equals the threshold
exactly ((5000000/393701) mm * 0.0393701 = 0.5 in) is retained. -/
theorem c5_threshold_filter_iff_witness :
    boundaryRec.value * MM_TO_INCHES = mkRat 1 2 ∧
    convertRecord boundaryRec ∈ filteredRecords [boundaryRec] (mkRat 1 2) := by
  constructor
  · rw [rat_mul_eval]
    decide
  · exact (c5_threshold_filter_iff [boundaryRec] (mkRat 1 2) boundaryRec
      (List.mem_singleton.mpr rfl)).mpr (by rw [rat_mul_eval]; decide)

/-- C3: the per-month average is the mean over only the (year, month)
groups that have at least one qualifying day.  On the June scenario
(3 qualifying days in 2020, 5 in 2022, none in 2021) the June average
is (3+5)/2 = 4.0, and not (3+0+5)/3 = 8/3. -/
theorem c3_june_average_over_present_years :
    process_data juneData (mkRat 1 2) = some [("June", (4 : ℚ))] ∧ (4 : ℚ) ≠ 8 / 3 := by
  constructor
  · have h1 : filteredRecords juneData (mkRat 1 2) =
        [⟨⟨2020, 6, 1⟩, mkRat 50000027 50000000⟩, ⟨⟨2020, 6, 2⟩, mkRat 50000027 50000000⟩,
         ⟨⟨2020, 6, 3⟩, mkRat 50000027 50000000⟩,
         ⟨⟨2022, 6, 1⟩, mkRat 50000027 50000000⟩, ⟨⟨2022, 6, 2⟩, mkRat 50000027 50000000⟩,
         ⟨⟨2022, 6, 3⟩, mkRat 50000027 50000000⟩, ⟨⟨2022, 6, 4⟩, mkRat 50000027 50000000⟩,
         ⟨⟨2022, 6, 5⟩, mkRat 50000027 50000000⟩] := by
      simp only [juneData, filteredRecords, convertedRecords, List.map_cons, List.map_nil,
        convertRecord, rat_mul_eval]
      decide
    have h2 : monthlyCounts (filteredRecords juneData (mkRat 1 2)) =
        [((2020, 6), 3), ((2022, 6), 5)] := by
      rw [h1]
      decide
    have h3 : avgDays [((2020, 6), 3), ((2022, 6), 5)] = [(6, (4 : ℚ))] := by
      have hk : monthKeys [((2020, 6), 3), ((2022, 6), 5)] = [6] := by decide
      simp only [avgDays, hk, List.map_cons, List.map_nil, List.filterMap_cons,
        List.filterMap_nil]
      norm_num
    show some ((avgDays (monthlyCounts (filteredRecords juneData (mkRat 1 2)))).map
      fun p => (monthName p.1, p.2)) = some [("June", (4 : ℚ))]
    rw [h2, h3]
    rfl
  · norm_num

/-- C4: for a year where the service returns exactly 1000 records at
offset 1 and an empty page at offset 1001, the fetcher issues exactly
the two page requests at offsets 1 and 1001 and returns exactly those
1000 records. -/
theorem c4_pagination_two_requests (svc : PageReq → Except Err (List ObservationRecord))
    (sid : Option String) (year fuel : ℕ) (batch : List ObservationRecord)
    (hf : 2 ≤ fuel)
    (h1 : svc ⟨sid, year, 1⟩ = .ok batch)
    (h2 : batch.length = 1000)
    (h3 : svc ⟨sid, year, 1001⟩ = .ok []) :
    fetch_precipitation_data svc sid year year fuel =
      some (.ok batch, [⟨sid, year, 1⟩, ⟨sid, year, 1001⟩]) := by
  obtain ⟨g, rfl⟩ : ∃ g, fuel = g + 1 + 1 := ⟨fuel - 2, by omega⟩
  cases batch with
  | nil => simp at h2
  | cons b bs =>
    have haux : fetchYearAux svc sid year (g + 1 + 1) 1 [] [] =
        some (.ok (b :: bs), [⟨sid, year, 1⟩, ⟨sid, year, 1001⟩]) := by
      conv_lhs => simp only [fetchYearAux, h1]
      show fetchYearAux svc sid year (g + 1) 1001 (b :: bs) [⟨sid, year, 1⟩] = _
      simp only [fetchYearAux, h3]
      rfl
    unfold fetch_precipitation_data
    rw [show year + 1 - year = 1 from by omega]
    show fetchYears svc sid (g + 1 + 1) [year] [] [] = _
    simp only [fetchYears, haux]

/-- C4 witness: a concrete service with a full page of 1000 records at
offset 1 and an empty page elsewhere, at fuel 2. -/
theorem c4_pagination_two_requests_witness :
    fetch_precipitation_data svcPage (some "GHCND:USW00014842") 2020 2020 2 =
      some (.ok (List.replicate 1000 dummyRec),
        [⟨some "GHCND:USW00014842", 2020, 1⟩, ⟨some "GHCND:USW00014842", 2020, 1001⟩]) :=
  c4_pagination_two_requests svcPage (some "GHCND:USW00014842") 2020 2
    (List.replicate 1000 dummyRec) (by decide) rfl (by rw [List.length_replicate]) rfl

/-- C7: if a page request fails, `fetch_precipitation_data` propagates
the service error: the pipeline shows the error, the aggregation stage
is never invoked and no table is produced (first conjunct), and the
failing page returns only the error regardless of the records
accumulated so far, which are discarded (second conjunct: the
conclusion does not depend on `acc`). -/
theorem c7_service_error_aborts (c : ℚ × ℚ) (stations : Except Err (List Station))
    (sid : Option String) (svc : PageReq → Except Err (List ObservationRecord))
    (start_year end_year fuel y1 off1 f2 : ℕ) (t : ℚ) (e : Err)
    (log : List PageReq) (acc : List ObservationRecord) (log2 : List PageReq)
    (hst : find_nearest_station stations = .ok sid)
    (hfetch : fetch_precipitation_data svc sid start_year end_year fuel =
      some (.error e, log))
    (hsvc : svc ⟨sid, y1, off1⟩ = .error e) :
    runPipeline (some c) stations svc start_year end_year t fuel =
      ⟨.errorShown e, true, true, false, log⟩ ∧
    fetchYearAux svc sid y1 (f2 + 1) off1 acc log2 =
      some (.error e, log2 ++ [⟨sid, y1, off1⟩]) := by
  constructor
  · unfold runPipeline get_coordinates
    rw [hst]
    dsimp only
    rw [hfetch]
  · simp only [fetchYearAux, hsvc]

/-- C7 witness: a service whose every page fails with status 503; the
run shows the error after the single failing request, and the failing
page discards a non-empty accumulator. -/
theorem c7_service_error_aborts_witness :
    runPipeline (some (0, 0)) (.ok [⟨"GHCND:USW00014842"⟩]) svcErr 2020 2021 (mkRat 1 2) 3 =
      ⟨.errorShown (.serviceError 503), true, true, false,
        [⟨some "GHCND:USW00014842", 2020, 1⟩]⟩ ∧
    fetchYearAux svcErr (some "GHCND:USW00014842") 2021 5 7 [dummyRec] [] =
      some (.error (.serviceError 503), [⟨some "GHCND:USW00014842", 2021, 7⟩]) :=
  c7_service_error_aborts (0, 0) (.ok [⟨"GHCND:USW00014842"⟩]) (some "GHCND:USW00014842")
    svcErr 2020 2021 3 2021 7 4 (mkRat 1 2) (.serviceError 503)
    [⟨some "GHCND:USW00014842", 2020, 1⟩] [dummyRec] [] rfl rfl rfl

/-- Two sorted lists that are permutations of each other are equal, so
sorting is invariant under permutation of the input. -/
theorem insertionSort_eq_of_perm {α : Type} (r : α → α → Prop) [DecidableRel r]
    [IsTotal α r] [IsTrans α r] [IsAntisymm α r] {l₁ l₂ : List α} (h : List.Perm l₁ l₂) :
    List.insertionSort r l₁ = List.insertionSort r l₂ :=
  List.eq_of_perm_of_sorted
    ((List.perm_insertionSort r l₁).trans (h.trans (List.perm_insertionSort r l₂).symm))
    (List.sorted_insertionSort r l₁) (List.sorted_insertionSort r l₂)

/-- C9: the aggregation result does not depend on the order of the
input record sequence: permuting the input leaves the output table
(rows and row order) unchanged. -/
theorem c9_order_independent (l₁ l₂ : List ObservationRecord) (t : ℚ)
    (h : List.Perm l₁ l₂) :
    process_data l₁ t = process_data l₂ t := by
  have hfil : List.Perm (filteredRecords l₁ t) (filteredRecords l₂ t) :=
    (h.map convertRecord).filter _
  have hkeys : groupKeys (filteredRecords l₁ t) = groupKeys (filteredRecords l₂ t) :=
    insertionSort_eq_of_perm keyLE ((hfil.map recordKey).dedup)
  have hmc : monthlyCounts (filteredRecords l₁ t) = monthlyCounts (filteredRecords l₂ t) := by
    unfold monthlyCounts
    rw [hkeys]
    refine List.map_congr_left fun k _ => ?_
    exact congrArg (fun n => (k, n))
      ((hfil.filter (fun r => decide (recordKey r = k))).length_eq)
  have hemp : l₁.isEmpty = l₂.isEmpty := by
    cases l₁ with
    | nil =>
      rw [← h.symm.eq_nil]
    | cons a as =>
      cases l₂ with
      | nil => exact absurd h.eq_nil (List.cons_ne_nil a as)
      | cons b bs => rfl
  unfold process_data
  rw [hemp, hmc]

/-- C9 witness: swapping two concrete records leaves the output
unchanged. -/
theorem c9_order_independent_witness :
    process_data [recA, recB] (mkRat 1 2) = process_data [recB, recA] (mkRat 1 2) :=
  c9_order_independent [recA, recB] [recB, recA] (mkRat 1 2) (List.Perm.swap recB recA [])

end RainRisk
